import Mathlib

/-!
Verification of the Insta-Downloader backend (Rust, `src/Backend/src`)
against its natural-language specification.  The Rust functions relevant to
the claims are shallowly embedded below: pure string logic is translated
directly, and effectful code (HTTP fetches, browser scripting, process
spawning, the filesystem) is modelled by passing the outcomes of those
effects in explicitly as environment values, keeping the Rust control flow
verbatim.
-/

namespace InstaDL

/-- Check whether the pattern list is an initial segment of the second list. -/
def leadsWith : List Char → List Char → Bool
  | [], _ => true
  | _ :: _, [] => false
  | p :: ps, c :: cs => p == c && leadsWith ps cs

/-- Model of Rust str::starts_with applied to whole strings. -/
def strStarts (s pat : String) : Bool := leadsWith pat.data s.data

/-- Model of Rust str::ends_with applied to whole strings. -/
def strEnds (s pat : String) : Bool := leadsWith pat.data.reverse s.data.reverse

/-- Substring search helper: does the pattern occur at any position of the list? -/
def hasSubAux (pat : List Char) : List Char → Bool
  | [] => leadsWith pat []
  | c :: cs => leadsWith pat (c :: cs) || hasSubAux pat cs

/-- Model of Rust str::contains (substring containment). -/
def strHas (s pat : String) : Bool := hasSubAux pat.data s.data

/-- Model of Rust str::is_empty. -/
def strIsEmpty (s : String) : Bool := s.data.isEmpty

/-- Content kinds the download route dispatches to. -/
inductive ContentKind
  | story
  | reel
  | post
deriving DecidableEq

/-- Embeds extractor.rs, is_story_url: url.contains("/stories/"). -/
def is_story_url (url : String) : Bool := strHas url "/stories/"

/-- Embeds extractor.rs, is_reel_url: url.contains("/reel/"). -/
def is_reel_url (url : String) : Bool := strHas url "/reel/"

/-- Embeds routes/download.rs, handle_download: the match on the pair
(is_story_url url, is_reel_url url) choosing the story, reel or post
orchestrator. -/
def classifyDownload (url : String) : ContentKind :=
  match is_story_url url, is_reel_url url with
  | true, _ => ContentKind.story
  | _, true => ContentKind.reel
  | _, _ => ContentKind.post

/-- Modelled from the claim wording of C4 (story on "/stories/", reel on
"/reel/" or "/reels/", post otherwise), stated only to compare the claimed
classifier with the one the download route actually uses. -/
def claimClassify (url : String) : ContentKind :=
  if strHas url "/stories/" then ContentKind.story
  else if strHas url "/reel/" || strHas url "/reels/" then ContentKind.reel
  else ContentKind.post

/-- C4 counterexample: the URL https://www.instagram.com/reels/abc/ contains
"/reels/", so the claim classifies it as a reel, but the download route
classifies it as a post: is_reel_url tests only for the substring "/reel/",
and "/reels/" does not contain "/reel/". -/
theorem reels_url_counterexample :
    claimClassify "https://www.instagram.com/reels/abc/" = ContentKind.reel ∧
    classifyDownload "https://www.instagram.com/reels/abc/" = ContentKind.post := by
  decide

/-- C4 (amended): the content-kind classifier used by the download route is a
pure function of the URL string: a URL containing "/stories/" is dispatched
as a story; otherwise a URL containing "/reel/" is dispatched as a reel;
every other URL, including one containing "/reels/" but not "/reel/", is
dispatched as a post; classifying the same URL twice yields the same kind. -/
theorem classify_download_spec (url : String) :
    (is_story_url url = true → classifyDownload url = ContentKind.story) ∧
    (is_story_url url = false → is_reel_url url = true →
      classifyDownload url = ContentKind.reel) ∧
    (is_story_url url = false → is_reel_url url = false →
      classifyDownload url = ContentKind.post) ∧
    classifyDownload url = classifyDownload url := by
  unfold classifyDownload
  cases h1 : is_story_url url <;> cases h2 : is_reel_url url <;> simp

/-- C4 witness: the amended classifier evaluated at one concrete URL of each
kind. -/
theorem classify_download_witness :
    classifyDownload "https://www.instagram.com/stories/user/123/" = ContentKind.story ∧
    classifyDownload "https://www.instagram.com/reel/abc/" = ContentKind.reel ∧
    classifyDownload "https://www.instagram.com/p/xyz/" = ContentKind.post :=
  ⟨(classify_download_spec _).1 (by decide),
   (classify_download_spec _).2.1 (by decide) (by decide),
   (classify_download_spec _).2.2.1 (by decide) (by decide)⟩

/-- Errors of the downloader (services/downloader.rs wraps every error in
DownloadError(String); the constructors below keep the distinct format
strings of the source apart so that statements can talk about which error a
branch produced and what it carries). -/
inductive DErr
  | msg (s : String)
  | createDirFailed (s : String)
  | httpRequestFailed (s : String)
  | httpStatus (code : Nat)
  | createFileFailed (s : String)
  | streamFailed (s : String)
  | writeFailed (s : String)
  | sizeMismatch (expected got : Nat)
  | emptyFile
  | exhaustedRetries (n : Nat) (last : Option DErr)
  | ytdlpExecFailed (status : Nat) (stderr : String)
  | ytdlpNotInstalled
  | ytdlpSpawnFailed (s : String)

/-- Embeds downloader.rs, MAX_RETRY. -/
def MAX_RETRY : Nat := 5

/-- Embeds the `while retry_count < MAX_RETRY` loop of
download_media_with_retry.  The environment `attempts` gives the outcome of
the i-th call of download_media_with_client; the fuel argument is
MAX_RETRY - retry_count, the second argument the number of attempts already
made, the third the `last_error` variable.  Returns the loop's result
together with how many underlying attempts were made. -/
def retryGo (attempts : Nat → Except DErr Unit) :
    Nat → Nat → Option DErr → Except DErr Unit × Nat
  | 0, made, last => (Except.error (DErr.exhaustedRetries MAX_RETRY last), made)
  | r + 1, made, _ =>
    match attempts made with
    | Except.ok _ => (Except.ok (), made + 1)
    | Except.error e => retryGo attempts r (made + 1) (some e)

/-- Embeds downloader.rs, download_media_with_retry: create the parent
directory (an environment outcome), then run the retry loop. -/
def download_media_with_retry (mkParent : Except String Unit)
    (attempts : Nat → Except DErr Unit) : Except DErr Unit × Nat :=
  match mkParent with
  | Except.error e => (Except.error (DErr.createDirFailed e), 0)
  | Except.ok _ => retryGo attempts MAX_RETRY 0 none

/-- Response data of a single HTTP fetch (the part of the reqwest response
download_media_with_client inspects). -/
structure HttpResp where
  ok : Bool
  status : Nat
  contentLength : Option Nat
deriving DecidableEq

/-- One event of the response body stream: a chunk of `len` bytes written to
the file, a stream error, or a file-write error. -/
inductive ChunkEvent
  | data (len : Nat)
  | streamFailed (msg : String)
  | writeFailed (msg : String)
deriving DecidableEq

/-- Environment of one download_media_with_client call: the outcome of the
HTTP send, of File::create, and the body stream events. -/
structure FetchEnv where
  send : Except String HttpResp
  createFile : Except String Unit
  chunks : List ChunkEvent

/-- Embeds the streaming loop of download_media_with_client: writes chunks
until the stream ends or an error occurs; on success the file on disk holds
exactly the bytes written, so fs::metadata afterwards reports their sum. -/
def writeChunks : List ChunkEvent → Except DErr Nat
  | [] => Except.ok 0
  | ChunkEvent.data n :: rest =>
    match writeChunks rest with
    | Except.ok total => Except.ok (n + total)
    | Except.error e => Except.error e
  | ChunkEvent.streamFailed m :: _ => Except.error (DErr.streamFailed m)
  | ChunkEvent.writeFailed m :: _ => Except.error (DErr.writeFailed m)

/-- Embeds the post-write verification of download_media_with_client: the
size-mismatch check against a declared content length runs first, the
empty-file check second, exactly as in the source. -/
def checkSize (contentLength : Option Nat) (file_size : Nat) : Except DErr Unit :=
  match contentLength with
  | some len =>
    if file_size ≠ len then Except.error (DErr.sizeMismatch len file_size)
    else if file_size = 0 then Except.error DErr.emptyFile
    else Except.ok ()
  | none =>
    if file_size = 0 then Except.error DErr.emptyFile
    else Except.ok ()

/-- Embeds downloader.rs, download_media_with_client: send the request,
check the status, create the file, stream the body, then verify the written
size. -/
def download_media_with_client (env : FetchEnv) : Except DErr Unit :=
  match env.send with
  | Except.error e => Except.error (DErr.httpRequestFailed e)
  | Except.ok resp =>
    if resp.ok = false then Except.error (DErr.httpStatus resp.status)
    else
      match env.createFile with
      | Except.error e => Except.error (DErr.createFileFailed e)
      | Except.ok _ =>
        match writeChunks env.chunks with
        | Except.error e => Except.error e
        | Except.ok file_size => checkSize resp.contentLength file_size

/-- Unfolding lemma for retryGo at zero fuel. -/
theorem retryGo_zero (attempts : Nat → Except DErr Unit) (made : Nat)
    (last : Option DErr) :
    retryGo attempts 0 made last =
      (Except.error (DErr.exhaustedRetries MAX_RETRY last), made) := rfl

/-- Unfolding lemma for retryGo at positive fuel. -/
theorem retryGo_succ (attempts : Nat → Except DErr Unit) (r made : Nat)
    (last : Option DErr) :
    retryGo attempts (r + 1) made last =
      (match attempts made with
       | Except.ok _ => (Except.ok (), made + 1)
       | Except.error e => retryGo attempts r (made + 1) (some e)) := rfl

/-- The retry loop makes at most `fuel` further attempts. -/
theorem retryGo_count (attempts : Nat → Except DErr Unit) :
    ∀ (r made : Nat) (last : Option DErr),
      (retryGo attempts r made last).2 ≤ made + r := by
  intro r
  induction r with
  | zero => intro made last; simp [retryGo_zero]
  | succ r ih =>
    intro made last
    rw [retryGo_succ]
    cases h : attempts made with
    | ok _ =>
      show made + 1 ≤ made + (r + 1)
      omega
    | error e =>
      show (retryGo attempts r (made + 1) (some e)).2 ≤ made + (r + 1)
      have := ih (made + 1) (some e)
      omega

/-- The retry loop never consults an attempt outside the indices
made, ..., made + fuel - 1. -/
theorem retryGo_congr (a b : Nat → Except DErr Unit) :
    ∀ (r made : Nat) (last : Option DErr),
      (∀ i, made ≤ i → i < made + r → a i = b i) →
      retryGo a r made last = retryGo b r made last := by
  intro r
  induction r with
  | zero => intro made last _; rfl
  | succ r ih =>
    intro made last h
    rw [retryGo_succ, retryGo_succ, h made (Nat.le_refl made) (by omega)]
    cases b made with
    | ok _ => rfl
    | error e => exact ih (made + 1) (some e) (fun i h1 h2 => h i (by omega) (by omega))

/-- The last error recorded after the retry loop runs out of fuel, when every
attempt fails. -/
def lastErrOf (es : Nat → DErr) (made r : Nat) (last : Option DErr) : Option DErr :=
  match r with
  | 0 => last
  | r + 1 => some (es (made + r))

/-- When every attempt fails, the retry loop exhausts its fuel, carries the
most recent error and reports exactly `fuel` further attempts made. -/
theorem retryGo_allFail (a : Nat → Except DErr Unit) (es : Nat → DErr)
    (h : ∀ i, a i = Except.error (es i)) :
    ∀ (r made : Nat) (last : Option DErr),
      retryGo a r made last =
        (Except.error (DErr.exhaustedRetries MAX_RETRY (lastErrOf es made r last)),
          made + r) := by
  intro r
  induction r with
  | zero => intro made last; simp [retryGo_zero, lastErrOf]
  | succ r ih =>
    intro made last
    rw [retryGo_succ, h made]
    show retryGo a r (made + 1) (some (es made)) =
      (Except.error (DErr.exhaustedRetries MAX_RETRY (lastErrOf es made (r + 1) last)),
        made + (r + 1))
    rw [ih (made + 1) (some (es made))]
    have hlast : lastErrOf es (made + 1) r (some (es made)) =
        lastErrOf es made (r + 1) last := by
      cases r with
      | zero => rfl
      | succ r =>
        show some (es (made + 1 + r)) = some (es (made + (r + 1)))
        have h2 : made + 1 + r = made + (r + 1) := by omega
        rw [h2]
    rw [hlast]
    have hc : made + 1 + r = made + (r + 1) := by omega
    rw [hc]

/-- Shared corollary: five straight failures exhaust the budget, carrying the
fifth error, after exactly five attempts.  The hypothesis constrains only the
first five attempt outcomes. -/
theorem retry_five_failures (a : Nat → Except DErr Unit) (es : Nat → DErr)
    (h : ∀ i, i < 5 → a i = Except.error (es i)) :
    download_media_with_retry (Except.ok ()) a =
      (Except.error (DErr.exhaustedRetries 5 (some (es 4))), 5) := by
  unfold download_media_with_retry
  have hcongr : retryGo a MAX_RETRY 0 none =
      retryGo (fun i => Except.error (es i)) MAX_RETRY 0 none := by
    apply retryGo_congr
    intro i h1 h2
    exact h i (by simpa [MAX_RETRY] using h2)
  rw [hcongr, retryGo_allFail (fun i => Except.error (es i)) es (fun _ => rfl) MAX_RETRY 0 none]
  rfl

/-- C1: the Verified Fetcher's retrying download makes at most 5 underlying
attempts; after exactly 5 failed attempts it returns the exhausted-retries
error carrying the last (fifth) underlying error; and its result never
depends on a sixth attempt (any two attempt environments agreeing on the
first five attempts give the same result). -/
theorem retry_budget_spec :
    (∀ (mk : Except String Unit) (a : Nat → Except DErr Unit),
      (download_media_with_retry mk a).2 ≤ 5) ∧
    (∀ (a : Nat → Except DErr Unit) (es : Nat → DErr),
      (∀ i, i < 5 → a i = Except.error (es i)) →
      download_media_with_retry (Except.ok ()) a =
        (Except.error (DErr.exhaustedRetries 5 (some (es 4))), 5)) ∧
    (∀ (mk : Except String Unit) (a b : Nat → Except DErr Unit),
      (∀ i, i < 5 → a i = b i) →
      download_media_with_retry mk a = download_media_with_retry mk b) := by
  refine ⟨?_, ?_, ?_⟩
  · intro mk a
    cases mk with
    | error e => simp [download_media_with_retry]
    | ok _ =>
      have := retryGo_count a MAX_RETRY 0 none
      simpa [download_media_with_retry, MAX_RETRY] using this
  · exact retry_five_failures
  · intro mk a b h
    cases mk with
    | error e => rfl
    | ok _ =>
      unfold download_media_with_retry
      exact retryGo_congr a b MAX_RETRY 0 none
        (fun i h1 h2 => h i (by simpa [MAX_RETRY] using h2))

/-- C1 witness: with every attempt failing with the same concrete error, the
retrying download returns the exhausted-retries error carrying it, after
exactly 5 attempts. -/
theorem retry_budget_witness :
    download_media_with_retry (Except.ok ()) (fun _ => Except.error (DErr.msg "boom")) =
      (Except.error (DErr.exhaustedRetries 5 (some (DErr.msg "boom"))), 5) :=
  retry_budget_spec.2.1 (fun _ => Except.error (DErr.msg "boom"))
    (fun _ => DErr.msg "boom") (fun _ _ => rfl)

/-- Succeeding verification pins the written size: positive, and equal to any
declared content length. -/
theorem checkSize_ok (cl : Option Nat) (sz : Nat)
    (h : checkSize cl sz = Except.ok ()) :
    0 < sz ∧ ∀ len, cl = some len → sz = len := by
  cases cl with
  | none =>
    refine ⟨?_, fun len hlen => by cases hlen⟩
    rcases Nat.eq_zero_or_pos sz with hz | hp
    · subst hz; simp [checkSize] at h
    · exact hp
  | some len =>
    have hsz : sz = len := by
      by_contra hne
      simp [checkSize, hne] at h
    refine ⟨?_, fun l hl => by cases hl; exact hsz⟩
    rcases Nat.eq_zero_or_pos sz with hz | hp
    · subst hz; cases hsz; simp [checkSize] at h
    · exact hp

/-- A successful single fetch necessarily ran the post-write verification on
the written size. -/
theorem download_ok_shape (env : FetchEnv) (resp : HttpResp) (sz : Nat)
    (hsend : env.send = Except.ok resp)
    (hw : writeChunks env.chunks = Except.ok sz)
    (hok : download_media_with_client env = Except.ok ()) :
    checkSize resp.contentLength sz = Except.ok () := by
  unfold download_media_with_client at hok
  simp only [hsend] at hok
  by_cases hro : resp.ok = false
  · simp [hro] at hok
  · have hro2 : resp.ok = true := by revert hro; cases resp.ok <;> simp
    simp only [hro2] at hok
    cases hcf : env.createFile with
    | error e => simp [hcf] at hok
    | ok _ =>
      simp only [hcf] at hok
      simp only [hw] at hok
      exact hok

/-- C3: a single fetch (download_media_with_client) succeeds only if the
written file size is strictly positive and equals any declared content
length; and every verification failure is an ordinary error to the retry
loop, consuming the same 5-attempt budget a network failure would. -/
theorem verified_fetch_spec :
    (∀ (env : FetchEnv) (resp : HttpResp) (sz : Nat),
      env.send = Except.ok resp →
      writeChunks env.chunks = Except.ok sz →
      download_media_with_client env = Except.ok () →
      0 < sz ∧ ∀ len, resp.contentLength = some len → sz = len) ∧
    (∀ (envs : Nat → FetchEnv) (es : Nat → DErr),
      (∀ i, i < 5 → download_media_with_client (envs i) = Except.error (es i)) →
      download_media_with_retry (Except.ok ())
          (fun i => download_media_with_client (envs i)) =
        (Except.error (DErr.exhaustedRetries 5 (some (es 4))), 5)) := by
  constructor
  · intro env resp sz hsend hw hok
    exact checkSize_ok _ _ (download_ok_shape env resp sz hsend hw hok)
  · intro envs es h
    exact retry_five_failures _ es h

/-- Environment of a fetch whose response body matches the declared length. -/
def fetchEnvOk : FetchEnv :=
  ⟨Except.ok ⟨true, 200, some 3⟩, Except.ok (), [ChunkEvent.data 3]⟩

/-- Environment of a fetch whose response body is one byte short of the
declared length: the stream completes normally but verification fails. -/
def fetchEnvShort : FetchEnv :=
  ⟨Except.ok ⟨true, 200, some 3⟩, Except.ok (), [ChunkEvent.data 2]⟩

/-- C3 witness: a complete 3-byte download passes verification, and a
truncated download fails verification on all five attempts, exhausting the
retry budget exactly as a network failure would. -/
theorem verified_fetch_witness :
    ((0:Nat) < 3 ∧ ∀ len, (some 3 : Option Nat) = some len → 3 = len) ∧
    download_media_with_retry (Except.ok ())
        (fun _ => download_media_with_client fetchEnvShort) =
      (Except.error (DErr.exhaustedRetries 5 (some (DErr.sizeMismatch 3 2))), 5) :=
  ⟨verified_fetch_spec.1 fetchEnvOk ⟨true, 200, some 3⟩ 3 rfl rfl rfl,
   verified_fetch_spec.2 (fun _ => fetchEnvShort)
     (fun _ => DErr.sizeMismatch 3 2) (fun _ _ => rfl)⟩

/-- One entry of the media array an in-page script returned, as the Rust
boundary sees it through serde_json: either not an object, or an object
whose "url" and "type" fields may each be missing or non-string (none). -/
inductive JsonItem
  | notObject
  | obj (url : Option String) (mtype : Option String)
deriving DecidableEq

/-- Embeds the filter_map of the reel branch of extract_post_media_once
(extractor.rs): keep an entry only when url and type are strings and the url
is non-empty, does not start with "blob:" and ends with ".mp4". -/
def reelItemAccept : JsonItem → Option (String × String)
  | JsonItem.notObject => none
  | JsonItem.obj none _ => none
  | JsonItem.obj (some _) none => none
  | JsonItem.obj (some u) (some t) =>
    if !strIsEmpty u && !strStarts u "blob:" && strEnds u ".mp4" then some (u, t)
    else none

/-- Embeds the filter_map of the post branch of extract_post_media_once:
keep an entry when url and type are strings, the url is non-empty and does
not start with "blob:". -/
def postItemAccept : JsonItem → Option (String × String)
  | JsonItem.notObject => none
  | JsonItem.obj none _ => none
  | JsonItem.obj (some _) none => none
  | JsonItem.obj (some u) (some t) =>
    if !strIsEmpty u && !strStarts u "blob:" then some (u, t)
    else none

/-- Embeds the first filter_map of extract_media_from_metadata: keep an
entry only when it is a video whose non-empty, non-blob url ends with
".mp4". -/
def metadataVideoAccept : JsonItem → Option (String × String)
  | JsonItem.notObject => none
  | JsonItem.obj none _ => none
  | JsonItem.obj (some _) none => none
  | JsonItem.obj (some u) (some t) =>
    if !strIsEmpty u && !strStarts u "blob:" && t == "video" && strEnds u ".mp4" then
      some (u, t)
    else none

/-- Embeds the fallback filter_map of extract_media_from_metadata (same
acceptance as the post branch). -/
def metadataItemAccept : JsonItem → Option (String × String)
  | JsonItem.notObject => none
  | JsonItem.obj none _ => none
  | JsonItem.obj (some _) none => none
  | JsonItem.obj (some u) (some t) =>
    if !strIsEmpty u && !strStarts u "blob:" then some (u, t)
    else none

/-- Embeds the per-story acceptance of extract_stories_once: the story
script's value is kept when url and type are strings and the url is
non-empty and does not start with "blob:". -/
def storyItemAccept : JsonItem → Option (String × String)
  | JsonItem.notObject => none
  | JsonItem.obj none _ => none
  | JsonItem.obj (some _) none => none
  | JsonItem.obj (some u) (some t) =>
    if !strIsEmpty u && !strStarts u "blob:" then some (u, t)
    else none

/-- Embeds extractor.rs, extract_post_media_once: process the reel script's
media array first; when it yields items, return them (reel short-circuit),
otherwise process the post script's media array.  The environment arguments
are the parsed media arrays the two in-page scripts returned (none when the
script result carried no media array); a script-execution failure returns an
error carrying no media and is not modelled here. -/
def extract_post_media_once (reelMedia postMedia : Option (List JsonItem)) :
    List (String × String) :=
  let reelItems := (reelMedia.getD []).filterMap reelItemAccept
  if reelItems.isEmpty then (postMedia.getD []).filterMap postItemAccept
  else reelItems

/-- Embeds extractor.rs, extract_media_from_metadata: if any entry qualifies
as a downloadable video, return exactly the first such entry; otherwise
return every non-blob entry (possibly none). -/
def extract_media_from_metadata (media : Option (List JsonItem)) :
    List (String × String) :=
  match (media.getD []).filterMap metadataVideoAccept with
  | v :: _ => [v]
  | [] => (media.getD []).filterMap metadataItemAccept

/-- Models the in-page reel script's regular expression matching ".mp4" at
the end of the string or followed by a question mark. -/
def mp4RegexAux : List Char → Bool
  | [] => false
  | c :: cs =>
    (leadsWith ".mp4".data (c :: cs) &&
      (match (c :: cs).drop 4 with
       | [] => true
       | q :: _ => q == '?')) || mp4RegexAux cs

/-- Match of the reel script's video-source pattern on a whole URL. -/
def jsMp4Match (s : String) : Bool := mp4RegexAux s.data

/-- Per-iteration environment of the story navigation loop: nav i is the
outcome of the i-th next-story script (error, or the clicked flag after
as_bool().unwrap_or(false)); ext i is the outcome of the i-th in-loop story
extraction script. -/
structure StoryLoopEnv where
  nav : Nat → Except String Bool
  ext : Nat → Except String JsonItem

/-- Embeds the `while story_count < max_stories` loop of
extract_stories_once (extractor.rs): navigate, stop when no next control is
reported, extract the current story, and count it only when it qualifies.
The fuel argument bounds how many iterations the model is allowed to
execute; none means the loop did not finish within that many iterations. -/
def storyLoop (env : StoryLoopEnv) :
    Nat → Nat → Nat → List (String × String) →
    Option (Except DErr (List (String × String)))
  | 0, _, _, _ => none
  | fuel + 1, i, count, acc =>
    if count < 20 then
      match env.nav i with
      | Except.error e =>
        some (Except.error (DErr.msg ("Failed to execute next story script: " ++ e)))
      | Except.ok false => some (Except.ok acc)
      | Except.ok true =>
        match env.ext i with
        | Except.error e =>
          some (Except.error (DErr.msg ("Failed to execute story script: " ++ e)))
        | Except.ok sd =>
          match storyItemAccept sd with
          | some item => storyLoop env fuel (i + 1) (count + 1) (acc ++ [item])
          | none => storyLoop env fuel (i + 1) count acc
    else some (Except.ok acc)

/-- Embeds extractor.rs, extract_stories_once: run the first story
extraction script; when its value qualifies, enter the navigation loop with
story_count = 1, otherwise return the empty result without looping. -/
def extract_stories_once (first : Except String JsonItem) (env : StoryLoopEnv)
    (fuel : Nat) : Option (Except DErr (List (String × String))) :=
  match first with
  | Except.error e =>
    some (Except.error (DErr.msg ("Failed to execute story script: " ++ e)))
  | Except.ok sd =>
    match storyItemAccept sd with
    | none => some (Except.ok [])
    | some item => storyLoop env fuel 0 1 [item]

/-- An entry the reel branch keeps has a non-blob url ending in ".mp4". -/
theorem reelItemAccept_some (it : JsonItem) (p : String × String)
    (h : reelItemAccept it = some p) :
    strStarts p.1 "blob:" = false ∧ strEnds p.1 ".mp4" = true := by
  cases it with
  | notObject => simp [reelItemAccept] at h
  | obj url mtype =>
    cases url with
    | none => simp [reelItemAccept] at h
    | some u =>
      cases mtype with
      | none => simp [reelItemAccept] at h
      | some t =>
        simp only [reelItemAccept] at h
        split at h
        case isTrue hc =>
          injection h with h2
          subst h2
          simp only [Bool.and_eq_true, Bool.not_eq_true'] at hc
          exact ⟨hc.1.2, hc.2⟩
        case isFalse => cases h

/-- An entry the post branch keeps has a non-blob url. -/
theorem postItemAccept_some (it : JsonItem) (p : String × String)
    (h : postItemAccept it = some p) : strStarts p.1 "blob:" = false := by
  cases it with
  | notObject => simp [postItemAccept] at h
  | obj url mtype =>
    cases url with
    | none => simp [postItemAccept] at h
    | some u =>
      cases mtype with
      | none => simp [postItemAccept] at h
      | some t =>
        simp only [postItemAccept] at h
        split at h
        case isTrue hc =>
          injection h with h2
          subst h2
          simp only [Bool.and_eq_true, Bool.not_eq_true'] at hc
          exact hc.2
        case isFalse => cases h

/-- An entry the metadata video pass keeps has a non-blob url ending in
".mp4". -/
theorem metadataVideoAccept_some (it : JsonItem) (p : String × String)
    (h : metadataVideoAccept it = some p) :
    strStarts p.1 "blob:" = false ∧ strEnds p.1 ".mp4" = true := by
  cases it with
  | notObject => simp [metadataVideoAccept] at h
  | obj url mtype =>
    cases url with
    | none => simp [metadataVideoAccept] at h
    | some u =>
      cases mtype with
      | none => simp [metadataVideoAccept] at h
      | some t =>
        simp only [metadataVideoAccept] at h
        split at h
        case isTrue hc =>
          injection h with h2
          subst h2
          simp only [Bool.and_eq_true, Bool.not_eq_true'] at hc
          exact ⟨hc.1.1.2, hc.2⟩
        case isFalse => cases h

/-- An entry the metadata fallback pass keeps has a non-blob url. -/
theorem metadataItemAccept_some (it : JsonItem) (p : String × String)
    (h : metadataItemAccept it = some p) : strStarts p.1 "blob:" = false := by
  cases it with
  | notObject => simp [metadataItemAccept] at h
  | obj url mtype =>
    cases url with
    | none => simp [metadataItemAccept] at h
    | some u =>
      cases mtype with
      | none => simp [metadataItemAccept] at h
      | some t =>
        simp only [metadataItemAccept] at h
        split at h
        case isTrue hc =>
          injection h with h2
          subst h2
          simp only [Bool.and_eq_true, Bool.not_eq_true'] at hc
          exact hc.2
        case isFalse => cases h

/-- A story the loop keeps has a non-blob url. -/
theorem storyItemAccept_some (it : JsonItem) (p : String × String)
    (h : storyItemAccept it = some p) : strStarts p.1 "blob:" = false := by
  cases it with
  | notObject => simp [storyItemAccept] at h
  | obj url mtype =>
    cases url with
    | none => simp [storyItemAccept] at h
    | some u =>
      cases mtype with
      | none => simp [storyItemAccept] at h
      | some t =>
        simp only [storyItemAccept] at h
        split at h
        case isTrue hc =>
          injection h with h2
          subst h2
          simp only [Bool.and_eq_true, Bool.not_eq_true'] at hc
          exact hc.2
        case isFalse => cases h

/-- The story loop preserves the non-blob property of its accumulator. -/
theorem storyLoop_blob (env : StoryLoopEnv) :
    ∀ (fuel i count : Nat) (acc res : List (String × String)),
      (∀ p ∈ acc, strStarts p.1 "blob:" = false) →
      storyLoop env fuel i count acc = some (Except.ok res) →
      ∀ p ∈ res, strStarts p.1 "blob:" = false := by
  intro fuel
  induction fuel with
  | zero => intro i count acc res hacc h; cases h
  | succ fuel ih =>
    intro i count acc res hacc h
    simp only [storyLoop] at h
    by_cases hc : count < 20
    · rw [if_pos hc] at h
      cases hnav : env.nav i with
      | error e => simp only [hnav] at h; simp at h
      | ok b =>
        simp only [hnav] at h
        cases b with
        | false =>
          simp only [Option.some.injEq, Except.ok.injEq] at h
          subst h; exact hacc
        | true =>
          cases hext : env.ext i with
          | error e => simp only [hext] at h; simp at h
          | ok sd =>
            simp only [hext] at h
            cases hsd : storyItemAccept sd with
            | none =>
              simp only [hsd] at h
              exact ih (i + 1) count acc res hacc h
            | some item =>
              simp only [hsd] at h
              refine ih (i + 1) (count + 1) (acc ++ [item]) res ?_ h
              intro p hp
              rcases List.mem_append.mp hp with h1 | h2
              · exact hacc p h1
              · have : p = item := by simpa using h2
                subst this
                exact storyItemAccept_some sd p hsd
    · rw [if_neg hc] at h
      simp only [Option.some.injEq, Except.ok.injEq] at h
      subst h; exact hacc

/-- C2: no extraction operation of the boundary (post or reel extraction,
metadata-only extraction, story extraction) ever returns a media item whose
source URL begins with "blob:". -/
theorem no_blob_urls_spec :
    (∀ (reelMedia postMedia : Option (List JsonItem)) (p : String × String),
      p ∈ extract_post_media_once reelMedia postMedia →
      strStarts p.1 "blob:" = false) ∧
    (∀ (media : Option (List JsonItem)) (p : String × String),
      p ∈ extract_media_from_metadata media → strStarts p.1 "blob:" = false) ∧
    (∀ (first : Except String JsonItem) (env : StoryLoopEnv) (fuel : Nat)
        (res : List (String × String)) (p : String × String),
      extract_stories_once first env fuel = some (Except.ok res) → p ∈ res →
      strStarts p.1 "blob:" = false) := by
  refine ⟨?_, ?_, ?_⟩
  · intro reelMedia postMedia p hp
    unfold extract_post_media_once at hp
    by_cases hre : (List.filterMap reelItemAccept (reelMedia.getD [])).isEmpty
    · rw [if_pos hre] at hp
      rcases List.mem_filterMap.mp hp with ⟨a, _, hacc⟩
      exact postItemAccept_some a p hacc
    · rw [if_neg hre] at hp
      rcases List.mem_filterMap.mp hp with ⟨a, _, hacc⟩
      exact (reelItemAccept_some a p hacc).1
  · intro media p hp
    unfold extract_media_from_metadata at hp
    cases hv : List.filterMap metadataVideoAccept (media.getD []) with
    | nil =>
      rw [hv] at hp
      rcases List.mem_filterMap.mp hp with ⟨a, _, hacc⟩
      exact metadataItemAccept_some a p hacc
    | cons v rest =>
      rw [hv] at hp
      have hpv : p = v := by simpa using hp
      subst hpv
      have hmem : p ∈ List.filterMap metadataVideoAccept (media.getD []) := by
        rw [hv]; exact List.mem_cons_self p rest
      rcases List.mem_filterMap.mp hmem with ⟨a, _, hacc⟩
      exact (metadataVideoAccept_some a p hacc).1
  · intro first env fuel res p h hp
    unfold extract_stories_once at h
    cases first with
    | error e => simp at h
    | ok sd =>
      simp only [] at h
      cases hsd : storyItemAccept sd with
      | none =>
        simp only [hsd] at h
        have : res = [] := by simpa using h.symm
        subst this; cases hp
      | some item =>
        simp only [hsd] at h
        refine storyLoop_blob env fuel 0 1 [item] res ?_ h p hp
        intro q hq
        have : q = item := by simpa using hq
        subst this
        exact storyItemAccept_some sd q hsd

/-- C2 witness: the post/reel extraction at a concrete one-entry media array
returns a url, and that url does not begin with "blob:". -/
theorem no_blob_urls_witness :
    strStarts "https://cdn.example.com/v/clip.mp4" "blob:" = false :=
  no_blob_urls_spec.1
    (some [JsonItem.obj (some "https://cdn.example.com/v/clip.mp4") (some "video")])
    none ("https://cdn.example.com/v/clip.mp4", "video") (by decide)

/-- A video URL that the in-page reel regex accepts even though a query
string follows the ".mp4": the Rust boundary drops it. -/
def queryMp4Url : String := "https://cdn.example.com/v/clip.mp4?token=1"

/-- C10: the reel-direct branch of post extraction and the video pass of
metadata-only extraction only keep URLs ending exactly in ".mp4"; a URL with
a trailing query string, although matched by the in-page script's regex, is
dropped by both. -/
theorem mp4_suffix_spec :
    (∀ (L : List JsonItem) (p : String × String),
      p ∈ L.filterMap reelItemAccept → strEnds p.1 ".mp4" = true) ∧
    (∀ (L : List JsonItem) (p : String × String),
      p ∈ L.filterMap metadataVideoAccept → strEnds p.1 ".mp4" = true) ∧
    jsMp4Match queryMp4Url = true ∧
    strEnds queryMp4Url ".mp4" = false ∧
    (∀ t : String,
      reelItemAccept (JsonItem.obj (some queryMp4Url) (some t)) = none ∧
      metadataVideoAccept (JsonItem.obj (some queryMp4Url) (some t)) = none) := by
  refine ⟨?_, ?_, by decide, by decide, ?_⟩
  · intro L p hp
    rcases List.mem_filterMap.mp hp with ⟨a, _, hacc⟩
    exact (reelItemAccept_some a p hacc).2
  · intro L p hp
    rcases List.mem_filterMap.mp hp with ⟨a, _, hacc⟩
    exact (metadataVideoAccept_some a p hacc).2
  · intro t
    constructor
    · have hcond : (!strIsEmpty queryMp4Url && !strStarts queryMp4Url "blob:" &&
          strEnds queryMp4Url ".mp4") = false := by decide
      simp [reelItemAccept, hcond]
    · have hcond : (!strIsEmpty queryMp4Url && !strStarts queryMp4Url "blob:" &&
          (("video" : String) == "video") && strEnds queryMp4Url ".mp4") = false := by
        decide
      simp only [metadataVideoAccept]
      have hends : strEnds queryMp4Url ".mp4" = false := by decide
      simp [hends]

/-- C10 witness: a url the reel branch keeps from a concrete media array
does end in ".mp4". -/
theorem mp4_suffix_witness :
    strEnds "https://cdn.example.com/v/clip.mp4" ".mp4" = true :=
  mp4_suffix_spec.1
    [JsonItem.obj (some "https://cdn.example.com/v/clip.mp4") (some "video")]
    ("https://cdn.example.com/v/clip.mp4", "video") (by decide)

/-- Page environment on which the story loop never finishes: the next-story
control is always reported present, but the current-story script never
yields a usable item. -/
def badStoryEnv : StoryLoopEnv :=
  ⟨fun _ => Except.ok true, fun _ => Except.ok JsonItem.notObject⟩

/-- On the bad environment the loop body never increments story_count, so no
amount of fuel completes it. -/
theorem storyLoop_badEnv :
    ∀ (fuel i count : Nat) (acc : List (String × String)), count < 20 →
      storyLoop badStoryEnv fuel i count acc = none := by
  intro fuel
  induction fuel with
  | zero => intro i count acc _; rfl
  | succ fuel ih =>
    intro i count acc hc
    simp only [storyLoop, if_pos hc]
    show storyLoop badStoryEnv fuel (i + 1) count acc = none
    exact ih (i + 1) count acc hc

/-- C6: story extraction does not always terminate.  On a page whose
navigation control is always present while the current-story script never
returns a usable item after a valid first story, the navigation loop runs
forever: no iteration bound (fuel) suffices for it to return, because
story_count is incremented only on successful extraction and the 20-story
cap compares story_count, not navigation steps. -/
theorem story_loop_nontermination :
    ∀ fuel : Nat,
      extract_stories_once
        (Except.ok (JsonItem.obj (some "https://cdn.example.com/story1.mp4")
          (some "video")))
        badStoryEnv fuel = none := by
  intro fuel
  show storyLoop badStoryEnv fuel 0 1
    [("https://cdn.example.com/story1.mp4", "video")] = none
  exact storyLoop_badEnv fuel 0 1 _ (by omega)

/-- The user-visible message of each downloader error, following the format
strings of the source (the quote characters around pip install yt-dlp and
the apostrophe of the closing phrase are omitted from the install-guidance
message). -/
def errMessage : DErr → String
  | DErr.msg s => s
  | DErr.createDirFailed e => "Failed to create directory: " ++ e
  | DErr.httpRequestFailed e => "HTTP request failed: " ++ e
  | DErr.httpStatus c => "HTTP error: " ++ toString c
  | DErr.createFileFailed e => "Failed to create file: " ++ e
  | DErr.streamFailed e => "Error while downloading file: " ++ e
  | DErr.writeFailed e => "Failed to write data to file: " ++ e
  | DErr.sizeMismatch a b =>
    "File size mismatch. Expected: " ++ toString a ++ ", Got: " ++ toString b
  | DErr.emptyFile => "Downloaded file is empty"
  | DErr.exhaustedRetries n none => "Failed after " ++ toString n ++ " retries: None"
  | DErr.exhaustedRetries n (some e) =>
    "Failed after " ++ toString n ++ " retries: Some(DownloadError(" ++
      errMessage e ++ "))"
  | DErr.ytdlpExecFailed st se =>
    "yt-dlp execution failed (" ++ toString st ++ "): " ++ se
  | DErr.ytdlpNotInstalled =>
    "yt-dlp is not installed. Please install it with pip install yt-dlp or your system package manager."
  | DErr.ytdlpSpawnFailed e => "Failed to execute yt-dlp: " ++ e

/-- Output of a finished external process as download_with_ytdlp inspects
it. -/
structure ToolOutput where
  success : Bool
  status : Nat
  stdout : String
  stderr : String

/-- Environment of one download_with_ytdlp call: the outcome of spawning
yt-dlp itself, and the outcome of spawning the secondary probe, the command
which yt-dlp (error when the probe process itself could not run; ok b when
it ran, b telling whether it found the binary — the source never reads
b). -/
structure ToolEnv where
  spawn : Except String ToolOutput
  whichSpawn : Except String Bool

/-- Embeds downloader.rs, download_with_ytdlp: success when the tool exited
zero; a non-zero exit reports the captured stderr; a spawn failure returns
the install-guidance error only when the probe itself failed to run, and
the generic spawn error otherwise.  The function performs no retry of its
own: it consults env.spawn exactly once. -/
def download_with_ytdlp (env : ToolEnv) : Except DErr Unit :=
  match env.spawn with
  | Except.ok out =>
    if out.success then Except.ok ()
    else Except.error (DErr.ytdlpExecFailed out.status out.stderr)
  | Except.error e =>
    match env.whichSpawn with
    | Except.error _ => Except.error DErr.ytdlpNotInstalled
    | Except.ok _ => Except.error (DErr.ytdlpSpawnFailed e)

/-- Does an error message mention installation guidance? -/
def mentionsInstall (s : String) : Bool := strHas s "install"

/-- Environment in which the yt-dlp binary is absent but the probe command
exists: spawning yt-dlp fails with the OS not-found error, while the probe
process runs fine and merely exits non-zero (ok false). -/
def ytdlpAbsentEnv : ToolEnv :=
  ⟨Except.error "No such file or directory (os error 2)", Except.ok false⟩

/-- C7: with the yt-dlp binary absent and the probe command present (the
normal case on a Unix system), the secondary existence probe process runs
successfully, so the code skips the install-guidance branch and returns the
generic spawn error, whose message does not mention installation; the
install-guidance message is returned only when the probe process itself
cannot be spawned. -/
theorem ytdlp_missing_binary_probe :
    download_with_ytdlp ytdlpAbsentEnv =
      Except.error (DErr.ytdlpSpawnFailed "No such file or directory (os error 2)") ∧
    mentionsInstall
      (errMessage (DErr.ytdlpSpawnFailed "No such file or directory (os error 2)")) =
      false ∧
    mentionsInstall (errMessage DErr.ytdlpNotInstalled) = true ∧
    download_with_ytdlp
        ⟨Except.error "No such file or directory (os error 2)",
          Except.error "probe spawn failed"⟩ =
      Except.error DErr.ytdlpNotInstalled :=
  ⟨rfl, by decide, by decide, rfl⟩

/-- Environment of one story-download request (handlers/story.rs): outcomes
of folder creation, the yt-dlp attempt, the post-hoc directory scan, the
browser connection, the navigation, the HTTP-client construction, the story
extraction, and each per-item fetch. -/
structure StoryEnv where
  mkdir : Except String Unit
  ytdlp : Except DErr Unit
  dirEntries : Except String (List String)
  connect : Except String Unit
  nav : Except String Unit
  httpClient : Except String Unit
  extraction : Except DErr (List (String × String))
  fetches : Nat → Except DErr Unit

/-- Responses the story handler can return. -/
inductive StoryResponse
  | folderError (e : String)
  | ytdlpStories (count : Nat)
  | browserError (e : String)
  | navError (e : String)
  | extractError (e : DErr)
  | noStories
  | httpClientError (e : String)
  | downloaded (succ total : Nat)
  | allFailed

/-- Result of one story-download request together with the browser-session
facts the temporal claim is about: whether a session was successfully
opened, and whether client.close() ran before the handler returned. -/
structure StoryRun where
  response : StoryResponse
  sessionOpened : Bool
  sessionClosed : Bool

/-- Count of directory entries carrying the expected story filename
(name.starts_with("story_") in the source). -/
def storyPrefixCount (names : List String) : Nat :=
  (names.filter (fun n => strStarts n "story_")).length

/-- Count of successful per-item fetches among the first n items. -/
def countFetchOk (fetches : Nat → Except DErr Unit) (n : Nat) : Nat :=
  ((List.range n).filter (fun i =>
    match fetches i with
    | Except.ok _ => true
    | Except.error _ => false)).length

/-- Embeds handlers/story.rs, download: folder creation, the yt-dlp-first
attempt with its post-hoc scan for "story_"-prefixed files, then the
browser fallback.  The source closes the session only after a successful
extraction, so the navigation-failure and extraction-failure branches
return with sessionClosed = false. -/
def story_download (env : StoryEnv) : StoryRun :=
  match env.mkdir with
  | Except.error e => ⟨StoryResponse.folderError e, false, false⟩
  | Except.ok _ =>
    let toolHit :=
      match env.ytdlp with
      | Except.ok _ =>
        match env.dirEntries with
        | Except.ok names => storyPrefixCount names
        | Except.error _ => 0
      | Except.error _ => 0
    if 0 < toolHit then ⟨StoryResponse.ytdlpStories toolHit, false, false⟩
    else
      match env.connect with
      | Except.error e => ⟨StoryResponse.browserError e, false, false⟩
      | Except.ok _ =>
        match env.nav with
        | Except.error e => ⟨StoryResponse.navError e, true, false⟩
        | Except.ok _ =>
          match env.extraction with
          | Except.error e => ⟨StoryResponse.extractError e, true, false⟩
          | Except.ok stories =>
            if stories.isEmpty then ⟨StoryResponse.noStories, true, true⟩
            else
              match env.httpClient with
              | Except.error e => ⟨StoryResponse.httpClientError e, true, true⟩
              | Except.ok _ =>
                let succ := countFetchOk env.fetches stories.length
                if 0 < succ then
                  ⟨StoryResponse.downloaded succ stories.length, true, true⟩
                else ⟨StoryResponse.allFailed, true, true⟩

/-- C5: when the yt-dlp attempt of the story handler succeeds and the
post-hoc directory scan finds at least one file with the expected "story_"
filename start, the request terminates successfully with that count and no
browser session is ever opened. -/
theorem ytdlp_story_success_spec (env : StoryEnv) (names : List String)
    (h1 : env.mkdir = Except.ok ())
    (h2 : env.ytdlp = Except.ok ())
    (h3 : env.dirEntries = Except.ok names)
    (h4 : 0 < storyPrefixCount names) :
    story_download env =
      ⟨StoryResponse.ytdlpStories (storyPrefixCount names), false, false⟩ := by
  unfold story_download
  simp only [h1, h2, h3]
  rw [if_pos h4]

/-- Environment of a story request whose yt-dlp attempt downloads one
"story_"-prefixed file. -/
def storyEnvTool : StoryEnv :=
  ⟨Except.ok (), Except.ok (), Except.ok ["story_001.mp4"], Except.ok (),
    Except.ok (), Except.ok (), Except.ok [], fun _ => Except.ok ()⟩

/-- C5 witness: the yt-dlp-first story environment returns the success
response for the one downloaded story, with no session opened. -/
theorem ytdlp_story_success_witness :
    story_download storyEnvTool =
      ⟨StoryResponse.ytdlpStories 1, false, false⟩ :=
  ytdlp_story_success_spec storyEnvTool ["story_001.mp4"] rfl rfl rfl (by decide)

/-- Environment of a story request where yt-dlp fails, the browser session
opens, and the navigation to the story URL fails. -/
def storyNavFailEnv : StoryEnv :=
  ⟨Except.ok (), Except.error (DErr.ytdlpExecFailed 1 "login required"),
    Except.ok [], Except.ok (), Except.error "navigation timeout", Except.ok (),
    Except.ok [], fun _ => Except.ok ()⟩

/-- C9: the story handler does not close its browser session on every exit
branch: when navigation fails after the session opened, it returns the
navigation error with the session still open (the same slip holds for the
extraction-failure branch, and handlers/post.rs never closes its session at
all). -/
theorem story_session_leak :
    (story_download storyNavFailEnv).sessionOpened = true ∧
    (story_download storyNavFailEnv).sessionClosed = false ∧
    (story_download storyNavFailEnv).response =
      StoryResponse.navError "navigation timeout" :=
  ⟨rfl, rfl, rfl⟩

/-- Responses of the reel fetch-verification stage of handlers/reel.rs. -/
inductive ReelStageResponse
  | complete
  | ytdlpOk
  | ytdlpFailed (e : DErr)

/-- Result of the reel fetch-verification stage plus whether the yt-dlp
fallback ran and with which cookie flag (the is_story argument of
download_with_ytdlp; none when no fallback ran). -/
structure ReelStageRun where
  response : ReelStageResponse
  fallbackCookies : Option Bool

/-- The fallback of reel.rs after a failed or rejected direct download:
yt-dlp invoked with is_story = false, that is without site cookies. -/
def reelFallbackNoCookies (ytdlpNoCookies : Except DErr Unit) : ReelStageRun :=
  match ytdlpNoCookies with
  | Except.ok _ => ⟨ReelStageResponse.ytdlpOk, some false⟩
  | Except.error e => ⟨ReelStageResponse.ytdlpFailed e, some false⟩

/-- Embeds the stage of handlers/reel.rs after the browser found a video
URL: run the verified fetch; on success re-read the file size (metaSize is
some n when fs::metadata succeeds, which it does here since the verified
fetch itself just read the same metadata) and reject files under 200000
bytes as thumbnails, falling back to yt-dlp without cookies; on fetch
failure fall back the same way. -/
def reel_fetch_stage (fetch : Except DErr Unit) (metaSize : Option Nat)
    (ytdlpNoCookies : Except DErr Unit) : ReelStageRun :=
  match fetch with
  | Except.ok _ =>
    match metaSize with
    | some n =>
      if n < 200000 then reelFallbackNoCookies ytdlpNoCookies
      else ⟨ReelStageResponse.complete, none⟩
    | none => ⟨ReelStageResponse.complete, none⟩
  | Except.error _ => reelFallbackNoCookies ytdlpNoCookies

/-- C8: after a successful fetch in reel orchestration, a file strictly
below 200000 bytes is rejected as a thumbnail and the handler falls back to
the external tool without site cookies, never reporting a completed
download; and a completed download is only ever reported for a file of at
least 200000 bytes. -/
theorem reel_threshold_spec (n : Nat) (yt : Except DErr Unit) :
    (n < 200000 →
      reel_fetch_stage (Except.ok ()) (some n) yt = reelFallbackNoCookies yt ∧
      (reel_fetch_stage (Except.ok ()) (some n) yt).fallbackCookies = some false ∧
      (reel_fetch_stage (Except.ok ()) (some n) yt).response ≠
        ReelStageResponse.complete) ∧
    ((reel_fetch_stage (Except.ok ()) (some n) yt).response =
        ReelStageResponse.complete → 200000 ≤ n) := by
  by_cases h : n < 200000
  · refine ⟨fun _ => ⟨?_, ?_, ?_⟩, fun habs => ?_⟩
    · show (if n < 200000 then reelFallbackNoCookies yt else _) = reelFallbackNoCookies yt
      rw [if_pos h]
    · show (if n < 200000 then reelFallbackNoCookies yt else _).fallbackCookies = some false
      rw [if_pos h]
      cases yt <;> rfl
    · show (if n < 200000 then reelFallbackNoCookies yt else _).response ≠
        ReelStageResponse.complete
      rw [if_pos h]
      cases yt <;> intro hx <;> cases hx
    · exfalso
      have hx : (reel_fetch_stage (Except.ok ()) (some n) yt).response =
          (reelFallbackNoCookies yt).response := by
        show (if n < 200000 then reelFallbackNoCookies yt else _).response = _
        rw [if_pos h]
      rw [hx] at habs
      cases yt <;> cases habs
  · refine ⟨fun hlt => absurd hlt h, fun _ => ?_⟩
    omega

/-- C8 witness: a 150000-byte file (Scenario C of the spec) is rejected and
triggers the cookie-free external-tool fallback. -/
theorem reel_threshold_witness :
    reel_fetch_stage (Except.ok ()) (some 150000) (Except.ok ()) =
      reelFallbackNoCookies (Except.ok ()) ∧
    (reel_fetch_stage (Except.ok ()) (some 150000) (Except.ok ())).fallbackCookies =
      some false ∧
    (reel_fetch_stage (Except.ok ()) (some 150000) (Except.ok ())).response ≠
      ReelStageResponse.complete :=
  (reel_threshold_spec 150000 (Except.ok ())).1 (by decide)

end InstaDL
